import Mathlib

/-
  Verification development for the nnstreamer flatbuffer tensor-converter
  subplugin (tensor_converter_flatbuf.cc) and the ExecuTorch tensor-filter
  subplugin (tensor_filter_executorch.cc).

  The C++ sources are shallowly embedded: machine integers become Nat,
  GStreamer buffers become explicit structures, pointer-based mutation of
  the caller-supplied GstTensorsConfig becomes explicit state passing, and
  the external collaborators (GStreamer allocator, ExecuTorch engine) are
  modelled at their interface boundary exactly as the code uses them.
-/

namespace NNStreamer

/-- Modelled from the spec: NNS_TENSOR_SIZE_LIMIT (the TENSOR_SET_LIMIT)
is defined in a header that is not part of the provided sources; the spec
gives the example value 16. -/
def NNS_TENSOR_SIZE_LIMIT : Nat := 16

/-- Modelled from the spec: NNS_TENSOR_RANK_LIMIT (the RANK_LIMIT) is
defined in a header that is not part of the provided sources; the spec
gives the example value 4. -/
def NNS_TENSOR_RANK_LIMIT : Nat := 4

/-- Frame-rate pair of the flatbuffer envelope (struct frame_rate). -/
structure frame_rate where
  rate_n : Nat
  rate_d : Nat
deriving Repr, DecidableEq

/-- One Tensor table of the flatbuffer envelope.  The payload vector of a
tensor lives inside the envelope buffer; dataOffset is the position of its
first byte in that buffer (what the C code recovers by the pointer
subtraction tensor_data->data () - in_info.data) and dataLen is the
declared vector length (VectorLength). -/
structure FBTensor where
  name : String
  ttype : Nat
  dimension : List Nat
  dataOffset : Nat
  dataLen : Nat
deriving Repr, DecidableEq

instance : Inhabited FBTensor := ⟨⟨"", 0, [], 0, 0⟩⟩

/-- The root Tensors table of the flatbuffer envelope.  numTensor models
the num_tensor field, which is stored separately from the tensor vector
itself and is what the conversion loop trusts. -/
structure FBTensors where
  format : Nat
  fr : frame_rate
  numTensor : Nat
  tensorVec : List FBTensor
deriving Repr, DecidableEq

/-- Per-tensor metadata slot of GstTensorsInfo (GstTensorInfo). -/
structure GstTensorInfo where
  name : Option String
  ttype : Nat
  dimension : List Nat
deriving Repr, DecidableEq

instance : Inhabited GstTensorInfo := ⟨⟨none, 0, []⟩⟩

/-- The tensors part of the caller-supplied GstTensorsConfig. -/
structure GstTensorsInfo where
  num_tensors : Nat
  format : Nat
  infos : List GstTensorInfo
deriving Repr, DecidableEq

/-- The caller-supplied GstTensorsConfig that fbc_convert mutates. -/
structure GstTensorsConfig where
  info : GstTensorsInfo
  rate_n : Nat
  rate_d : Nat
deriving Repr, DecidableEq

/-- A zero-copy view into the source buffer: the result of
gst_memory_share at a given offset and length. -/
structure GstMemoryView where
  offset : Nat
  length : Nat
deriving Repr, DecidableEq

/-- The output GstBuffer assembled by fbc_convert: the ordered views
appended by gst_buffer_append_memory, plus the flag recording that
gst_buffer_copy_into copied the timestamp metadata. -/
structure GstBufferOut where
  mems : List GstMemoryView
  metaCopied : Bool
deriving Repr, DecidableEq

/-- The input GstBuffer: its mapped size, whether gst_memory_map succeeds,
and the flatbuffer envelope that GetTensors reads from the mapped data. -/
structure InBuffer where
  length : Nat
  mapOk : Bool
  envelope : FBTensors
deriving Repr, DecidableEq

/-- Host allocator capability share(buffer, offset, length): constructs an
aliasing view.  The collaborator is modelled at its interface boundary; it
performs no validation on behalf of the converter. -/
def gst_memory_share (offset mem_size : Nat) : GstMemoryView :=
  ⟨offset, mem_size⟩

/-- The per-tensor metadata written into the i-th GstTensorInfo slot by
the loop body of fbc_convert: empty name becomes NULL, the type is copied,
and NNS_TENSOR_RANK_LIMIT dimension entries are read (an out-of-range
flatbuffer vector read is modelled as the default value 0). -/
def fbc_tensor_info (t : FBTensor) : GstTensorInfo :=
  { name := if t.name.length > 0 then some t.name else none
    ttype := t.ttype
    dimension := (List.range NNS_TENSOR_RANK_LIMIT).map fun j => t.dimension.getD j 0 }

/-- The conversion loop of fbc_convert over the remaining indices: each
step reads tensor i, overwrites the i-th info slot of the config, and
appends the shared view for the declared payload range.  An index beyond
the actual tensor vector (possible when num_tensor lies about the vector
length) is undefined behaviour in C and is modelled as failure. -/
def fbc_loop (v : List FBTensor) :
    List Nat → List GstTensorInfo → List GstMemoryView →
    Option (List GstTensorInfo × List GstMemoryView)
  | [], infos, views => some (infos, views)
  | i :: rest, infos, views =>
    match v.get? i with
    | none => none
    | some t =>
        fbc_loop v rest (infos.set i (fbc_tensor_info t))
          (views ++ [gst_memory_share t.dataOffset t.dataLen])

/-- Shallow embedding of fbc_convert.  Returns the produced output buffer
(NULL modelled as none) together with the caller-supplied config after the
call (none when the caller passed NULL).  Mirrors the source order of
operations: NULL-parameter check, memory map, num_tensors and format
written into the config, tensor-count limit check (goto done with a NULL
out_buf), frame-rate written, then the per-tensor loop, then the metadata
copy. -/
def fbc_convert (in_buf : Option InBuffer) (config : Option GstTensorsConfig) :
    Option GstBufferOut × Option GstTensorsConfig :=
  match in_buf, config with
  | none, cfg => (none, cfg)
  | some _, none => (none, none)
  | some buf, some cfg =>
    if buf.mapOk = false then (none, some cfg)
    else
      let tensors := buf.envelope
      let info1 : GstTensorsInfo :=
        { cfg.info with num_tensors := tensors.numTensor, format := tensors.format }
      if tensors.numTensor > NNS_TENSOR_SIZE_LIMIT then
        (none, some { cfg with info := info1 })
      else
        let cfg2 : GstTensorsConfig :=
          { cfg with info := info1, rate_n := tensors.fr.rate_n, rate_d := tensors.fr.rate_d }
        match fbc_loop tensors.tensorVec (List.range tensors.numTensor) info1.infos [] with
        | none => (none, some cfg2)
        | some (infos2, views) =>
            (some { mems := views, metaCopied := true },
             some { cfg2 with info := { cfg2.info with infos := infos2 } })

/-
  ExecuTorch tensor-filter subplugin (executorch_subplugin).

  Member state of the C++ class: configured flag, the g_strdup-ed model
  path, the owned input/output GstTensorsInfo metadata, the method name
  pointer, and the unique_ptr<Result<Method>> (a null unique_ptr until the
  first configure reaches load_method; afterwards it holds a Result whose
  ok flag we keep).  The ExecuTorch engine is an external collaborator and
  is modelled by the outcomes it reports at each configure step.
-/

namespace executorch

/-- Member state of an executorch_subplugin instance.  method models the
unique_ptr<Result<Method>> field: none is the null unique_ptr, some b a
Result whose ok () is b. -/
structure ETState where
  configured : Bool
  model_path : Option String
  inputInfo : GstTensorsInfo
  outputInfo : GstTensorsInfo
  method : Option Bool
  method_name : Option String
deriving Repr, DecidableEq

/-- State of a freshly constructed instance: gst_tensors_info_init zeroes
the metadata, the pointers are null, configured is false. -/
def freshState : ETState :=
  { configured := false, model_path := none
    inputInfo := ⟨0, 0, []⟩, outputInfo := ⟨0, 0, []⟩
    method := none, method_name := none }

/-- Outcomes through which a member function returns to its caller:
normal return, a thrown C++ exception that propagates (with the state the
instance is left in), a fatal ET_CHECK_MSG failure that aborts the whole
process, or a dereference of the null method unique_ptr (undefined
behaviour in C++). -/
inductive CallOutcome where
  | ret (s : ETState)
  | thrown (msg : String) (s : ETState)
  | aborted
  | nullDeref
deriving Repr, DecidableEq

/-- Behaviour of the external ExecuTorch engine and of the file system
during one configure attempt, observed at the collaborator interface:
whether the model path is a regular file, whether each engine step
reports success, the declared memory-planned buffer sizes, and the name
of method 0. -/
structure EngineModel where
  fileIsRegular : Bool
  loaderOk : Bool
  programOk : Bool
  methodNameOk : Bool
  methodName : String
  methodMetaOk : Bool
  plannedSizes : List Nat
  loadMethodOk : Bool
deriving Repr, DecidableEq

/-- Heap trace of the memory-planned buffers during one configure call:
the sizes allocated (one std::make_unique per declared size, in declared
order) and the sizes freed when the local planned_buffers vector is
destroyed as configure_instance returns. -/
structure ConfigureTrace where
  plannedAllocs : List Nat
  plannedFreedOnExit : List Nat
deriving Repr, DecidableEq

/-- Shallow embedding of executorch_subplugin::cleanup: frees and nulls
model_path, then, only if configured, frees the tensor metadata, nulls
method_name and clears configured.  The method unique_ptr is not touched
by cleanup in the source. -/
def cleanup (s : ETState) : ETState :=
  let s1 := { s with model_path := none }
  if s1.configured = false then s1
  else
    { s1 with
      inputInfo := ⟨0, 0, []⟩
      outputInfo := ⟨0, 0, []⟩
      method_name := none, configured := false }

/-- Shallow embedding of executorch_subplugin::configure_instance.
Mirrors the source order: implicit cleanup when already configured; the
g_file_test failure throws std::invalid_argument, which the catch block
turns into cleanup plus rethrow; model_path is g_strdup-ed; loader,
method-name, method-meta and load_method failures hit ET_CHECK_MSG and
abort the process (abort runs no destructors, so nothing allocated is
freed on those paths); a Program::load failure does a bare return.  The
planned buffers are a local vector, so on every path that returns
normally they are freed on scope exit. -/
def configure_instance (s : ETState) (eng : EngineModel) (path : String) :
    CallOutcome × ConfigureTrace :=
  let s0 := if s.configured = true then cleanup s else s
  if eng.fileIsRegular = false then
    (.thrown "Given file is not valid" (cleanup s0), ⟨[], []⟩)
  else
    let s1 := { s0 with model_path := some path }
    if eng.loaderOk = false then (.aborted, ⟨[], []⟩)
    else if eng.programOk = false then (.ret s1, ⟨[], []⟩)
    else if eng.methodNameOk = false then (.aborted, ⟨[], []⟩)
    else
      let s2 := { s1 with method_name := some eng.methodName }
      if eng.methodMetaOk = false then (.aborted, ⟨[], []⟩)
      else
        let allocs := eng.plannedSizes
        let s3 := { s2 with method := some eng.loadMethodOk }
        if eng.loadMethodOk = false then (.aborted, ⟨allocs, []⟩)
        else ({ s3 with configured := true } |> .ret, ⟨allocs, allocs⟩)

/-- Shallow embedding of executorch_subplugin::invoke.  input and output
being non-null are booleans; execOk is the status the engine reports from
method_ref.execute ().  A null input or output throws; then the code
dereferences the method unique_ptr (undefined behaviour when it is still
null); a held non-ok Result throws; the input-binding and output loops
leave the member state unchanged; an execute failure hits ET_CHECK_MSG
and aborts the process. -/
def invoke (s : ETState) (inputNonNull outputNonNull execOk : Bool) : CallOutcome :=
  if inputNonNull = false then .thrown "Invalid input buffer, it is NULL." s
  else if outputNonNull = false then .thrown "Invalid output buffer, it is NULL." s
  else
    match s.method with
    | none => .nullDeref
    | some ok =>
        if ok = false then .thrown "Method is not properly initialized." s
        else if execOk = false then .aborted
        else .ret s

/-- Engine behaviour in which every configure step succeeds and the
method metadata declares two memory-planned buffers. -/
def engGood : EngineModel :=
  { fileIsRegular := true, loaderOk := true, programOk := true
    methodNameOk := true, methodName := "forward", methodMetaOk := true
    plannedSizes := [1024, 2048], loadMethodOk := true }

/-- Engine behaviour in which the model file exists and loads into a data
loader, but Program::load reports failure. -/
def engBadProgram : EngineModel :=
  { engGood with programOk := false }

/-- The member state after a successful configure of a fresh instance
with engGood and model path model.pte. -/
def cfgdState : ETState :=
  { configured := true, model_path := some "model.pte"
    inputInfo := ⟨0, 0, []⟩, outputInfo := ⟨0, 0, []⟩
    method := some true, method_name := some "forward" }

/-- The state an already-configured cfgdState is left in when a
reconfigure with engBadProgram and path new.pte returns: teardown ran
(metadata and method_name cleared, configured false), the new path was
copied, and the old method Result is still held. -/
def sAfterReconf : ETState :=
  { configured := false, model_path := some "new.pte"
    inputInfo := ⟨0, 0, []⟩, outputInfo := ⟨0, 0, []⟩
    method := some true, method_name := none }

end executorch

/-- Initial caller-side config: all-zero counters with a full-size array
of zeroed per-tensor slots, as after gst_tensors_config_init. -/
def cfgInit : GstTensorsConfig :=
  { info := { num_tensors := 0, format := 0
              infos := List.replicate NNS_TENSOR_SIZE_LIMIT default }
    rate_n := 0, rate_d := 0 }

/-- Envelope whose num_tensor field declares 17 tensors, one more than
NNS_TENSOR_SIZE_LIMIT. -/
def envOver : FBTensors :=
  { format := 2, fr := ⟨30, 1⟩, numTensor := 17, tensorVec := [] }

/-- A mappable 4096-byte source buffer holding the over-limit envelope. -/
def bufOver : InBuffer :=
  { length := 4096, mapOk := true, envelope := envOver }

/-- Tensor a of the concrete two-tensor scenario: FLOAT32, dims 1x3x2x2,
48 payload bytes at offset 64. -/
def tensorA : FBTensor :=
  { name := "a", ttype := 7, dimension := [1, 3, 2, 2], dataOffset := 64, dataLen := 48 }

/-- Unnamed tensor of the concrete two-tensor scenario: UINT8, dims
1x1x1x10, 10 payload bytes at offset 112. -/
def tensorB : FBTensor :=
  { name := "", ttype := 5, dimension := [1, 1, 1, 10], dataOffset := 112, dataLen := 10 }

/-- The two-tensor envelope of the concrete scenario. -/
def envPair : FBTensors :=
  { format := 0, fr := ⟨30, 1⟩, numTensor := 2, tensorVec := [tensorA, tensorB] }

/-- The 8KB source buffer holding the two-tensor envelope. -/
def bufPair : InBuffer :=
  { length := 8192, mapOk := true, envelope := envPair }

/-- A tensor whose declared payload range, 200 bytes at offset 100, does
not fit in a 128-byte buffer. -/
def tensorOOB : FBTensor :=
  { name := "x", ttype := 2, dimension := [1, 1, 1, 1], dataOffset := 100, dataLen := 200 }

/-- Envelope declaring the single out-of-range tensor. -/
def envOOB : FBTensors :=
  { format := 0, fr := ⟨30, 1⟩, numTensor := 1, tensorVec := [tensorOOB] }

/-- A mappable 128-byte source buffer holding the out-of-range envelope:
the declared payload range 100 + 200 exceeds 128. -/
def bufOOB : InBuffer :=
  { length := 128, mapOk := true, envelope := envOOB }

/-- The caller-supplied config after the capacity-failure path of
fbc_convert: num_tensors and format have already been overwritten with
the envelope values (source lines preceding the limit check), everything
else untouched. -/
def capacityFailConfig (cfg : GstTensorsConfig) (e : FBTensors) : GstTensorsConfig :=
  { cfg with info := { cfg.info with num_tensors := e.numTensor, format := e.format } }

/-
  Theorems.
-/

/-- Sanity: configuring a fresh instance with the all-success engine
returns normally in the configured state cfgdState. -/
theorem configure_good_reaches_cfgdState :
    (executorch.configure_instance executorch.freshState executorch.engGood "model.pte").1
      = executorch.CallOutcome.ret executorch.cfgdState := by
  decide

/-- Claim C2: for every envelope declaring more tensors than
NNS_TENSOR_SIZE_LIMIT, fbc_convert produces a NULL output buffer: no
output buffer is constructed and no tensor slice is emitted. -/
theorem fbc_too_many_tensors_null (buf : InBuffer) (cfg : GstTensorsConfig)
    (h : buf.envelope.numTensor > NNS_TENSOR_SIZE_LIMIT) :
    (fbc_convert (some buf) (some cfg)).1 = none := by
  rcases hm : buf.mapOk with _ | _ <;> simp [fbc_convert, hm, h]

/-- Witness for fbc_too_many_tensors_null at the 17-tensor envelope. -/
theorem fbc_too_many_tensors_null_witness :
    bufOver.envelope.numTensor > NNS_TENSOR_SIZE_LIMIT ∧
    (fbc_convert (some bufOver) (some cfgInit)).1 = none :=
  ⟨by decide, fbc_too_many_tensors_null bufOver cfgInit (by decide)⟩

/-- Claim C3 counterexample: at the concrete 17-tensor envelope, the
capacity-failing call does not leave the caller-supplied config
unchanged: its num_tensors field, 0 before the call, is 17 after it. -/
theorem fbc_config_mutated_cex :
    cfgInit.info.num_tensors = 0 ∧
    ((fbc_convert (some bufOver) (some cfgInit)).2.map fun c => c.info.num_tensors) = some 17 ∧
    (fbc_convert (some bufOver) (some cfgInit)).2 ≠ some cfgInit := by
  decide

/-- Claim C3 (amended): when decode fails because the envelope declares
more tensors than NNS_TENSOR_SIZE_LIMIT, no output buffer or view is
produced, but the caller-supplied config is not left unchanged: its
num_tensors and format fields are already overwritten with the envelope
values before the limit check; the frame rate and the per-tensor entries
are untouched. -/
theorem fbc_capacity_partial_config (buf : InBuffer) (cfg : GstTensorsConfig)
    (hm : buf.mapOk = true) (h : buf.envelope.numTensor > NNS_TENSOR_SIZE_LIMIT) :
    fbc_convert (some buf) (some cfg) = (none, some (capacityFailConfig cfg buf.envelope)) := by
  simp [fbc_convert, hm, h, capacityFailConfig]

/-- Witness for fbc_capacity_partial_config at the 17-tensor envelope. -/
theorem fbc_capacity_partial_config_witness :
    bufOver.mapOk = true ∧
    bufOver.envelope.numTensor > NNS_TENSOR_SIZE_LIMIT ∧
    fbc_convert (some bufOver) (some cfgInit) =
      (none, some (capacityFailConfig cfgInit bufOver.envelope)) :=
  ⟨rfl, by decide, fbc_capacity_partial_config bufOver cfgInit rfl (by decide)⟩

/-- Claim C10: if the input buffer or the config argument is NULL,
fbc_convert returns NULL, constructs no view, and leaves the other
argument unmodified. -/
theorem fbc_null_args (in_buf : Option InBuffer) (config : Option GstTensorsConfig)
    (h : in_buf = none ∨ config = none) :
    fbc_convert in_buf config = (none, config) := by
  rcases h with h | h
  · subst h; cases config <;> rfl
  · subst h; cases in_buf <;> rfl

/-- Witness for fbc_null_args with a NULL input buffer and a non-NULL
config. -/
theorem fbc_null_args_witness :
    ((none : Option InBuffer) = none ∨ (some cfgInit : Option GstTensorsConfig) = none) ∧
    fbc_convert none (some cfgInit) = (none, some cfgInit) :=
  ⟨Or.inl rfl, fbc_null_args none (some cfgInit) (Or.inl rfl)⟩

open executorch in
/-- Claim C4: the spec says invoke on an Unconfigured instance is
rejected immediately with a StateError before binding inputs or
executing.  In the code, a fresh (never configured) instance has a null
method unique_ptr, and invoke dereferences it: undefined behaviour, not a
rejection.  This theorem evaluates the model at that failing input. -/
theorem invoke_unconfigured_null_deref :
    executorch.freshState.configured = false ∧
    executorch.invoke executorch.freshState true true true = CallOutcome.nullDeref := by
  decide

open executorch in
/-- Claim C5 counterexample: at the concrete configured state, a
non-success execute status makes invoke hit the fatal ET_CHECK_MSG and
abort the whole process; the failure is not propagated to the caller as
an error of the call, so no state in which the instance could be invoked
again exists. -/
theorem invoke_engine_failure_cex :
    executorch.invoke executorch.cfgdState true true false = CallOutcome.aborted ∧
    ¬ ∃ m s', executorch.invoke executorch.cfgdState true true false = CallOutcome.thrown m s'
        ∧ s'.configured = true := by
  refine ⟨rfl, ?_⟩
  rintro ⟨m, s', h, -⟩
  rw [show executorch.invoke executorch.cfgdState true true false = CallOutcome.aborted from rfl] at h
  exact CallOutcome.noConfusion h

open executorch in
/-- Claim C5 (amended): if the engine reports a non-success status during
the execute step of invoke, the fatal check aborts the process for any
instance holding an ok method Result; no error is propagated and the
instance cannot be invoked again. -/
theorem invoke_engine_failure_aborts (s : ETState) (h : s.method = some true) :
    executorch.invoke s true true false = CallOutcome.aborted := by
  simp [executorch.invoke, h]

open executorch in
/-- Witness for invoke_engine_failure_aborts at the concrete configured
state. -/
theorem invoke_engine_failure_aborts_witness :
    executorch.cfgdState.method = some true ∧
    executorch.invoke executorch.cfgdState true true false = CallOutcome.aborted :=
  ⟨rfl, invoke_engine_failure_aborts executorch.cfgdState rfl⟩

open executorch in
/-- Claim C6: the allocation half of the claim holds: one planned buffer
per engine-declared size, in declared order, exactly once per configure.
But the buffers do not remain owned across subsequent invoke calls: the
planned_buffers vector is a local of configure_instance, so every planned
buffer is freed when configure returns, as the trace records.  This is
the code bug the claim exposes. -/
theorem configure_planned_buffers_freed :
    (configure_instance freshState engGood "model.pte").1 = CallOutcome.ret cfgdState ∧
    (configure_instance freshState engGood "model.pte").2.plannedAllocs = engGood.plannedSizes ∧
    (configure_instance freshState engGood "model.pte").2.plannedFreedOnExit
      = engGood.plannedSizes := by
  decide

open executorch in
/-- Claim C8 counterexample: at the concrete configured state holding an
ok method Result, a reconfigure whose Program::load fails returns with
the old method Result still held in the instance, so a resource of the
old configuration survives reconfiguration. -/
theorem reconfigure_method_survives_cex :
    executorch.cfgdState.configured = true ∧
    (configure_instance cfgdState engBadProgram "new.pte").1 = CallOutcome.ret sAfterReconf ∧
    executorch.sAfterReconf.method = some true := by
  decide

open executorch in
/-- Claim C8 (amended): the implicit teardown that configure performs on
an already-configured instance releases the model path and the tensor
metadata, but not the method resource: cleanup leaves the method field
untouched, and a reconfigure that fails at Program::load returns with the
previous method Result still held. -/
theorem reconfigure_teardown_keeps_method (s : ETState) (eng : EngineModel) (p : String)
    (hc : s.configured = true) (hf : eng.fileIsRegular = true)
    (hl : eng.loaderOk = true) (hp : eng.programOk = false) :
    (executorch.cleanup s).model_path = none ∧
    (executorch.cleanup s).method = s.method ∧
    (configure_instance s eng p).1 =
      CallOutcome.ret { executorch.cleanup s with model_path := some p } := by
  refine ⟨?_, ?_, ?_⟩
  · simp only [executorch.cleanup]
    split <;> rfl
  · simp only [executorch.cleanup]
    split <;> rfl
  · simp [executorch.configure_instance, hc, hf, hl, hp]

open executorch in
/-- Witness for reconfigure_teardown_keeps_method at the concrete
configured state and the failing-program engine. -/
theorem reconfigure_teardown_keeps_method_witness :
    executorch.cfgdState.configured = true ∧
    executorch.engBadProgram.fileIsRegular = true ∧
    executorch.engBadProgram.loaderOk = true ∧
    executorch.engBadProgram.programOk = false ∧
    ((executorch.cleanup cfgdState).model_path = none ∧
     (executorch.cleanup cfgdState).method = cfgdState.method ∧
     (configure_instance cfgdState engBadProgram "other.pte").1 =
       CallOutcome.ret { executorch.cleanup cfgdState with model_path := some "other.pte" }) :=
  ⟨rfl, rfl, rfl, rfl,
    reconfigure_teardown_keeps_method cfgdState engBadProgram "other.pte" rfl rfl rfl rfl⟩

open executorch in
/-- Claim C9: on the Program::load failure path, configure_instance does
a bare return: the instance is left Unconfigured, but the g_strdup-ed
model path copied during the failed attempt is still held when configure
returns, contradicting the all-or-nothing release the claim states.  This
theorem evaluates the model at that failing input. -/
theorem configure_program_load_retains_path :
    (configure_instance freshState engBadProgram "model.pte").1 =
      CallOutcome.ret { freshState with model_path := some "model.pte" } ∧
    ({ executorch.freshState with model_path := some "model.pte" } : ETState).configured = false ∧
    ({ executorch.freshState with model_path := some "model.pte" } : ETState).model_path ≠ none := by
  decide

/-- Evaluating fbc_loop when every visited index lies within the tensor
vector: the loop succeeds and appends, for each index in order, the
shared view of the declared payload range of that tensor. -/
theorem fbc_loop_spec (v : List FBTensor) (idxs : List Nat) :
    ∀ (infos : List GstTensorInfo) (views : List GstMemoryView),
      (∀ i ∈ idxs, i < v.length) →
      ∃ infos2, fbc_loop v idxs infos views =
        some (infos2, views ++ idxs.map fun i =>
          gst_memory_share (v.getD i default).dataOffset (v.getD i default).dataLen) := by
  induction idxs with
  | nil =>
      intro infos views _
      exact ⟨infos, by simp [fbc_loop]⟩
  | cons i rest ih =>
      intro infos views h
      have hi : i < v.length := h i (List.mem_cons_self i rest)
      have ht : v.get? i = some (v.getD i default) := by
        rw [List.getD_eq_getElem?_getD, List.get?_eq_getElem?, List.getElem?_eq_getElem hi]
        rfl
      obtain ⟨infos2, heq⟩ := ih (infos.set i (fbc_tensor_info (v.getD i default)))
        (views ++ [gst_memory_share (v.getD i default).dataOffset (v.getD i default).dataLen])
        (fun j hj => h j (List.mem_cons_of_mem i hj))
      refine ⟨infos2, ?_⟩
      simp only [fbc_loop, ht]
      rw [heq]
      simp

/-- Reading the first n entries of a tensor vector by index and sharing
each declared payload range equals sharing over the length-n front of the
vector. -/
theorem range_map_take (v : List FBTensor) :
    ∀ n, n ≤ v.length →
      ((List.range n).map fun i =>
          gst_memory_share (v.getD i default).dataOffset (v.getD i default).dataLen)
        = (v.take n).map fun t => gst_memory_share t.dataOffset t.dataLen := by
  intro n
  induction n with
  | zero => intro _; simp
  | succ m ih =>
      intro h
      have hm : m < v.length := h
      rw [List.range_succ, List.map_append, ih (Nat.le_of_succ_le h)]
      rw [List.take_succ, List.map_append, List.getElem?_eq_getElem hm]
      simp [List.getD_eq_getElem?_getD, List.getElem?_eq_getElem hm]

/-- Evaluating fbc_convert on a mappable buffer whose envelope respects
the tensor-count limit and whose num_tensor field does not exceed the
actual vector length: the conversion succeeds and the output buffer holds
exactly one shared view per declared tensor, in declared order, at each
declared payload range, with the buffer metadata copied at the end. -/
theorem fbc_convert_success (buf : InBuffer) (cfg : GstTensorsConfig)
    (hm : buf.mapOk = true)
    (hn : buf.envelope.numTensor ≤ NNS_TENSOR_SIZE_LIMIT)
    (hv : buf.envelope.numTensor ≤ buf.envelope.tensorVec.length) :
    (fbc_convert (some buf) (some cfg)).1 =
      some { mems := (buf.envelope.tensorVec.take buf.envelope.numTensor).map
               fun t => gst_memory_share t.dataOffset t.dataLen
             metaCopied := true } := by
  obtain ⟨infos2, heq⟩ := fbc_loop_spec buf.envelope.tensorVec
    (List.range buf.envelope.numTensor) cfg.info.infos []
    (fun i hiR => Nat.lt_of_lt_of_le (List.mem_range.mp hiR) hv)
  have hnot : ¬ buf.envelope.numTensor > NNS_TENSOR_SIZE_LIMIT := not_lt.mpr hn
  rw [List.nil_append, range_map_take buf.envelope.tensorVec buf.envelope.numTensor hv] at heq
  simp only [fbc_convert, hm, hnot, if_false, Bool.true_eq_false, ite_false]
  rw [heq]

/-- Claim C7: for every valid envelope, fbc_convert emits one view per
declared tensor, in the order the tensors are declared, each at the
declared payload offset and length. -/
theorem fbc_order_preserved (buf : InBuffer) (cfg : GstTensorsConfig)
    (hm : buf.mapOk = true)
    (hn : buf.envelope.numTensor ≤ NNS_TENSOR_SIZE_LIMIT)
    (hv : buf.envelope.numTensor ≤ buf.envelope.tensorVec.length) :
    (fbc_convert (some buf) (some cfg)).1 =
      some { mems := (buf.envelope.tensorVec.take buf.envelope.numTensor).map
               fun t => gst_memory_share t.dataOffset t.dataLen
             metaCopied := true } :=
  fbc_convert_success buf cfg hm hn hv

/-- Witness for fbc_order_preserved at the concrete scenario of the
claim: the two-tensor envelope in the 8KB buffer yields exactly the view
(offset 64, length 48) and then the view (offset 112, length 10). -/
theorem fbc_order_preserved_witness :
    bufPair.mapOk = true ∧
    bufPair.envelope.numTensor ≤ NNS_TENSOR_SIZE_LIMIT ∧
    bufPair.envelope.numTensor ≤ bufPair.envelope.tensorVec.length ∧
    (fbc_convert (some bufPair) (some cfgInit)).1 =
      some { mems := [⟨64, 48⟩, ⟨112, 10⟩], metaCopied := true } := by
  refine ⟨rfl, by decide, by decide, ?_⟩
  rw [fbc_order_preserved bufPair cfgInit rfl (by decide) (by decide)]
  rfl

/-- Claim C1 counterexample: at the concrete envelope declaring 200
payload bytes at offset 100 inside a 128-byte buffer, fbc_convert does
not fail: it returns an output buffer holding exactly the out-of-bounds
view (offset 100, length 200). -/
theorem fbc_oob_view_cex :
    (fbc_convert (some bufOOB) (some cfgInit)).1 =
      some { mems := [⟨100, 200⟩], metaCopied := true } ∧
    bufOOB.length < 100 + 200 := by
  decide

/-- Claim C1 (amended): the decoder performs no bounds validation of the
declared payload ranges: the only checks before slicing are the NULL
checks, the memory map, and the tensor-count limit.  For any tensor whose
declared offset + length exceeds the buffer length, conversion still
succeeds and the view with exactly that out-of-range offset and length is
emitted at the tensor's position. -/
theorem fbc_emits_oob_view (buf : InBuffer) (cfg : GstTensorsConfig) (i : Nat) (t : FBTensor)
    (hm : buf.mapOk = true)
    (hn : buf.envelope.numTensor ≤ NNS_TENSOR_SIZE_LIMIT)
    (hv : buf.envelope.numTensor ≤ buf.envelope.tensorVec.length)
    (hi : i < buf.envelope.numTensor)
    (ht : buf.envelope.tensorVec.get? i = some t)
    (hoob : buf.length < t.dataOffset + t.dataLen) :
    ∃ out, (fbc_convert (some buf) (some cfg)).1 = some out ∧
      out.mems.get? i = some (gst_memory_share t.dataOffset t.dataLen) ∧
      buf.length < (gst_memory_share t.dataOffset t.dataLen).offset +
        (gst_memory_share t.dataOffset t.dataLen).length := by
  refine ⟨_, fbc_convert_success buf cfg hm hn hv, ?_, hoob⟩
  rw [List.get?_eq_getElem?, List.getElem?_map, List.getElem?_take_of_lt hi]
  rw [← List.get?_eq_getElem?, ht]
  rfl

/-- Witness for fbc_emits_oob_view at the concrete out-of-range
envelope. -/
theorem fbc_emits_oob_view_witness :
    bufOOB.mapOk = true ∧
    bufOOB.envelope.numTensor ≤ NNS_TENSOR_SIZE_LIMIT ∧
    bufOOB.envelope.numTensor ≤ bufOOB.envelope.tensorVec.length ∧
    0 < bufOOB.envelope.numTensor ∧
    bufOOB.envelope.tensorVec.get? 0 = some tensorOOB ∧
    bufOOB.length < tensorOOB.dataOffset + tensorOOB.dataLen ∧
    ∃ out, (fbc_convert (some bufOOB) (some cfgInit)).1 = some out ∧
      out.mems.get? 0 = some (gst_memory_share tensorOOB.dataOffset tensorOOB.dataLen) ∧
      bufOOB.length < (gst_memory_share tensorOOB.dataOffset tensorOOB.dataLen).offset +
        (gst_memory_share tensorOOB.dataOffset tensorOOB.dataLen).length :=
  ⟨rfl, by decide, by decide, by decide, by decide, by decide,
    fbc_emits_oob_view bufOOB cfgInit 0 tensorOOB rfl (by decide) (by decide) (by decide)
      (by decide) (by decide)⟩

end NNStreamer
